import Mathlib

/-!
Shallow embedding of the quadcopter simulator in src/copter.py
(classes Propellor, Copter, Quadcopter) and proofs about it.

Conventions of the embedding:
* Python floats are modelled as real numbers.
* The 12-dimensional state vector is a function Fin 12 → ℝ; 3-vectors are
  Fin 3 → ℝ and 3×3 matrices are Matrix (Fin 3) (Fin 3) ℝ.
* numpy's dot on (matrix, vector) is Matrix.mulVec, numpy's cross is spelled
  out from its component formula, numpy's linalg.inv is Matrix inversion.
* Fallible Python code (code whose execution raises) is modelled with Except;
  PyError enumerates the runtime errors the module can actually raise.
-/

noncomputable section

/-- Runtime errors of the Python module that the embedding tracks.  The module
raises NameError when a statement evaluates a name that is defined neither as
a local variable nor as a module-level global. -/
inductive PyError where
  | nameError (missing : String)
deriving DecidableEq

/-- Embeds class Propellor (src/copter.py lines 8-36): diameter, pitch, the
current speed in RPM and the current thrust in newtons. -/
structure Propellor where
  diameter : ℝ
  pitch : ℝ
  speed : ℝ
  thrust : ℝ

/-- Embeds Propellor.__init__ (lines 20-25): stores diameter and pitch and
starts with speed = 0 and thrust = 0. -/
def Propellor.init (diameter pitch : ℝ) : Propellor :=
  { diameter := diameter, pitch := pitch, speed := 0, thrust := 0 }

/-- Embeds Propellor.setSpeed (lines 27-36): stores the speed and recomputes
the thrust by the three sequential assignments of lines 34-36:
thrust = 4.392e-8 * speed * diameter**3.5, then divided by sqrt(pitch), then
multiplied by (4.23e-4 * speed * pitch).  math.pow is real exponentiation. -/
def Propellor.setSpeed (p : Propellor) (speed : ℝ) : Propellor :=
  let thrust1 := 4.392e-8 * speed * p.diameter ^ (3.5 : ℝ)
  let thrust2 := thrust1 / Real.sqrt p.pitch
  let thrust3 := thrust2 * (4.23e-4 * speed * p.pitch)
  { p with speed := speed, thrust := thrust3 }

/-- Real-number remainder with the semantics of Python's and numpy's % on
floats: a % b = a - b * floor(a / b), so for b > 0 the result lies in [0, b). -/
def fmod (a b : ℝ) : ℝ := a - b * (⌊a / b⌋ : ℝ)

/-- Embeds Copter.wrap_angle (src/copter.py lines 85-86):
(val + pi) % (2 * pi) - pi, applied componentwise to orientation slices. -/
def wrap_angle (val : ℝ) : ℝ := fmod (val + Real.pi) (2 * Real.pi) - Real.pi

/-- Embeds the local R_x of Copter.rotation_matrix (src/copter.py line 79):
rotation about the x-axis by angles[0]. -/
def R_x (t : ℝ) : Matrix (Fin 3) (Fin 3) ℝ :=
  !![1, 0, 0; 0, Real.cos t, -Real.sin t; 0, Real.sin t, Real.cos t]

/-- Embeds the local R_y of Copter.rotation_matrix (src/copter.py line 80):
rotation about the y-axis by angles[1]. -/
def R_y (t : ℝ) : Matrix (Fin 3) (Fin 3) ℝ :=
  !![Real.cos t, 0, Real.sin t; 0, 1, 0; -Real.sin t, 0, Real.cos t]

/-- Embeds the local R_z of Copter.rotation_matrix (src/copter.py line 81):
rotation about the z-axis by angles[2]. -/
def R_z (t : ℝ) : Matrix (Fin 3) (Fin 3) ℝ :=
  !![Real.cos t, -Real.sin t, 0; Real.sin t, Real.cos t, 0; 0, 0, 1]

/-- Embeds Copter.rotation_matrix (src/copter.py lines 72-83):
R = np.dot(R_z, np.dot(R_y, R_x)) on the roll/pitch/yaw triple angles. -/
def rotation_matrix (angles : Fin 3 → ℝ) : Matrix (Fin 3) (Fin 3) ℝ :=
  R_z (angles 2) * (R_y (angles 1) * R_x (angles 0))

/-- Embeds np.cross on 3-vectors (used at src/copter.py line 193), by the
componentwise definition of the cross product. -/
def cross (a b : Fin 3 → ℝ) : Fin 3 → ℝ :=
  ![a 1 * b 2 - a 2 * b 1, a 2 * b 0 - a 0 * b 2, a 0 * b 1 - a 1 * b 0]

/-- Embeds one entry of the Copter.wings dictionary as Quadcopter.state_dot
reads it: the stored 12-dimensional state vector, the scalar configuration
values weight, r and L, and the four Propellor objects m1..m4. -/
structure Wing where
  state : Fin 12 → ℝ
  weight : ℝ
  r : ℝ
  L : ℝ
  m1 : Propellor
  m2 : Propellor
  m3 : Propellor
  m4 : Propellor

/-- Embeds the ixx ( = iyy) computation of Copter.__init__ (src/copter.py
lines 56-58). -/
def Wing.ixx (w : Wing) : ℝ :=
  2 * w.weight * w.r ^ 2 / 5 + 2 * w.weight * w.L ^ 2

/-- Embeds the izz computation of Copter.__init__ (src/copter.py lines
59-60). -/
def Wing.izz (w : Wing) : ℝ :=
  2 * w.weight * w.r ^ 2 / 5 + 4 * w.weight * w.L ^ 2

/-- Embeds the inertia tensor wings[key]['I'] of Copter.__init__ (src/copter.py
line 61): diag(ixx, iyy, izz) with iyy = ixx. -/
def Wing.I (w : Wing) : Matrix (Fin 3) (Fin 3) ℝ :=
  !![w.ixx, 0, 0; 0, w.ixx, 0; 0, 0, w.izz]

/-- Embeds wings[key]['invI'] = np.linalg.inv(wings[key]['I']) of
Copter.__init__ (src/copter.py line 62), as the Matrix nonsingular inverse. -/
def Wing.invI (w : Wing) : Matrix (Fin 3) (Fin 3) ℝ := (Wing.I w)⁻¹

/-- Embeds Quadcopter.state_dot (src/copter.py lines 166-198).  Note that the
body reads every state component from the stored vector
self.wings[key]['state'] (the field Wing.state here); the state argument
passed by the ODE solver is bound but never read, exactly as in the source.
The linear acceleration of lines 173-177 adds the un-divided gravity vector
np.array([0,0,-weight*g]) to the thrust term np.dot(R, [0,0,sum])/weight:
by Python operator precedence only the thrust product is divided by weight. -/
def Quadcopter.state_dot (g b : ℝ) (w : Wing) (time : ℝ) (state : Fin 12 → ℝ) :
    Fin 12 → ℝ :=
  let thrustSum := w.m1.thrust + w.m2.thrust + w.m3.thrust + w.m4.thrust
  let R := rotation_matrix ![w.state 6, w.state 7, w.state 8]
  let x_dotdot : Fin 3 → ℝ :=
    fun i => ![(0 : ℝ), 0, -(w.weight * g)] i + R.mulVec ![0, 0, thrustSum] i / w.weight
  let omega : Fin 3 → ℝ := ![w.state 9, w.state 10, w.state 11]
  let tau : Fin 3 → ℝ :=
    ![w.L * (w.m1.thrust - w.m3.thrust),
      w.L * (w.m2.thrust - w.m4.thrust),
      b * (w.m1.thrust - w.m2.thrust + w.m3.thrust - w.m4.thrust)]
  let omega_dot : Fin 3 → ℝ :=
    (Wing.invI w).mulVec (fun i => tau i - cross omega ((Wing.I w).mulVec omega) i)
  ![w.state 3, w.state 4, w.state 5,
    x_dotdot 0, x_dotdot 1, x_dotdot 2,
    w.state 9, w.state 10, w.state 11,
    omega_dot 0, omega_dot 1, omega_dot 2]

/-- Models the outcome of one call of the external solver self.ode.integrate
in Copter.update (src/copter.py line 97): the returned 12-vector together with
the solver's success flag.  scipy's vode integrator reports exhaustion of its
500-internal-step budget through this flag (ode.successful()) and a printed
warning; it does not raise, and it still returns a vector. -/
structure OdeResult where
  y : Fin 12 → ℝ
  success : Bool

/-- Embeds the body of the per-wing loop of Copter.update (src/copter.py lines
93-100): the solver's return value is assigned to the wing's stored state
unconditionally (line 97, no check of the success flag and no exception path),
then wrap_angle is applied to components 6, 7, 8 (lines 98-99), then component
2 is clamped to max(0, ...) (line 100). -/
def Copter.update_wing (sol : OdeResult) : Fin 12 → ℝ :=
  let afterWrap : Fin 12 → ℝ :=
    fun i => if i = 6 ∨ i = 7 ∨ i = 8 then wrap_angle (sol.y i) else sol.y i
  fun i => if i = 2 then max 0 (afterWrap 2) else afterWrap i

/-- Embeds one value of the wings dictionary as Copter.__init__ receives it
(src/copter.py lines 50-62): initial position and orientation, weight, the
geometry values r and L, and the propeller size pair. -/
structure WingSpec where
  position : Fin 3 → ℝ
  orientation : Fin 3 → ℝ
  weight : ℝ
  r : ℝ
  L : ℝ
  prop_size : ℝ × ℝ

/-- Embeds Quadcopter.__init__ (src/copter.py lines 163-164), which runs
Copter.__init__ (lines 41-63) with num_wings = 4.  For every key of the wings
dictionary the loop of lines 50-62 first builds the state vector and then
calls setupWings(key, 4); the loop body of setupWings (line 68) evaluates the
global name Propeller, which is defined nowhere in the module (the propeller
class of line 8 is spelled Propellor), so with four wings per vehicle the
first iteration raises NameError before the inertia computation of lines
56-62 runs.  No validation of weight, r or L exists anywhere in __init__.
With an empty dictionary the loop body never runs and construction
succeeds. -/
def Quadcopter.init (wings : List WingSpec) : Except PyError (List Wing) :=
  match wings with
  | [] => Except.ok []
  | _ :: _ => Except.error (PyError.nameError "Propeller")

/-- Embeds Copter.set_motor_speeds (src/copter.py lines 103-105).  The loop
header for i in range(num_wings) evaluates the name num_wings, which is
neither a local of the method (its parameters are self, quad_name, speeds) nor
a module global, so the call raises NameError before any iteration runs.  (The
body would in turn evaluate the undefined name key and the nonexistent
Propellor method set_speed; the actual method of line 27 is setSpeed.) -/
def Copter.set_motor_speeds (quad_name : String) (speeds : List ℝ) :
    Except PyError Unit :=
  Except.error (PyError.nameError "num_wings")

/-! Helper lemmas. -/

/-- fmod with positive divisor is the divisor times the fractional part of the
quotient. -/
lemma fmod_eq_fract (a : ℝ) {b : ℝ} (hb : b ≠ 0) :
    fmod a b = b * Int.fract (a / b) := by
  unfold fmod Int.fract
  rw [mul_sub]
  congr 1
  field_simp

/-- fmod with positive divisor lands in the interval from 0 up to, excluding,
the divisor. -/
lemma fmod_mem_Ico (a : ℝ) {b : ℝ} (hb : 0 < b) : fmod a b ∈ Set.Ico 0 b := by
  rw [fmod_eq_fract a hb.ne']
  constructor
  · exact mul_nonneg hb.le (Int.fract_nonneg _)
  · calc b * Int.fract (a / b) < b * 1 :=
        mul_lt_mul_of_pos_left (Int.fract_lt_one _) hb
    _ = b := mul_one b

/-- Componentwise characterisation of the updated state after one wing's
integration step. -/
lemma update_wing_apply (sol : OdeResult) :
    Copter.update_wing sol 2 = max 0 (sol.y 2) ∧
    Copter.update_wing sol 6 = wrap_angle (sol.y 6) ∧
    Copter.update_wing sol 7 = wrap_angle (sol.y 7) ∧
    Copter.update_wing sol 8 = wrap_angle (sol.y 8) := by
  refine ⟨?_, ?_, ?_, ?_⟩ <;> simp [Copter.update_wing]


/-! Concrete inputs used by the evaluation theorems. -/

/-- Propellor of size 10 by 4.5 inches as freshly constructed: thrust 0. -/
def zeroThrustProp : Propellor := Propellor.init 10 4.5

/-- Wing at rest at the origin with every stored state component equal to 1,
weight 1, r = 0.1, L = 0.3 and four freshly constructed propellers. -/
def storedOnesWing : Wing :=
  { state := fun _ => 1, weight := 1, r := 0.1, L := 0.3,
    m1 := zeroThrustProp, m2 := zeroThrustProp, m3 := zeroThrustProp,
    m4 := zeroThrustProp }

/-- Wing spec with a negative weight (invalid configuration). -/
def negativeWeightSpec : WingSpec :=
  { position := fun _ => 0, orientation := fun _ => 0, weight := -1,
    r := 0.1, L := 0.3, prop_size := (10, 4.5) }

/-- Wing spec with positive weight and geometry (valid configuration). -/
def positiveWeightSpec : WingSpec :=
  { position := fun _ => 0, orientation := fun _ => 0, weight := 1.5,
    r := 0.1, L := 0.3, prop_size := (10, 4.5) }

/-- C2: Quadcopter.state_dot is not a pure function of the state argument the
solver passes: with the stored state vector all ones, the derivative returned
for the all-zero state argument has component 0 equal to the stored component
3 (namely 1, not the argument's component 3 = 0), component 6 equal to the
stored component 9, and the result does not change at all when the state
argument changes, because the body only reads the stored vector. -/
theorem state_dot_reads_stored_state_not_argument :
    Quadcopter.state_dot 9.81 0.0245 storedOnesWing 0 (fun _ => 0) 0 = 1 ∧
    Quadcopter.state_dot 9.81 0.0245 storedOnesWing 0 (fun _ => 0) 6 = 1 ∧
    ((1 : ℝ) ≠ 0) ∧
    Quadcopter.state_dot 9.81 0.0245 storedOnesWing 0 (fun _ => 0) =
      Quadcopter.state_dot 9.81 0.0245 storedOnesWing 0 (fun _ => 999) := by
  refine ⟨rfl, rfl, by norm_num, rfl⟩

/-- C5: calling set_motor_speeds raises NameError (the loop bound num_wings is
an undefined name), for any vehicle name and any length-4 speed list; no
propeller speed is ever set. -/
theorem set_motor_speeds_raises_name_error :
    Copter.set_motor_speeds "q1" [6000, 6000, 6000, 6000] =
      Except.error (PyError.nameError "num_wings") := rfl

/-- C6: the integration step ignores the solver's success flag: the state
stored after a failed step is identical to the state stored after a successful
step returning the same vector, the diverged vector itself is stored (shown on
component 0), and no error value is produced (update_wing returns a plain
state, there is no error path in Copter.update). -/
theorem update_swallows_solver_failure :
    Copter.update_wing { y := fun _ => 7, success := false } =
      Copter.update_wing { y := fun _ => 7, success := true } ∧
    Copter.update_wing { y := fun _ => 7, success := false } 0 = 7 := by
  constructor
  · rfl
  · simp [Copter.update_wing]

/-- C7: construction performs no configuration validation: a fleet whose only
vehicle has negative weight and a fleet whose only vehicle is entirely valid
fail identically, both with NameError on the undefined name Propeller (the
class is spelled Propellor), not with any configuration error. -/
theorem init_raises_name_error_not_config_error :
    Quadcopter.init [negativeWeightSpec] =
      Except.error (PyError.nameError "Propeller") ∧
    Quadcopter.init [positiveWeightSpec] =
      Except.error (PyError.nameError "Propeller") :=
  ⟨rfl, rfl⟩

/-- C8: after an integration step the vertical position component (index 2) of
the stored state is non-negative, whatever 12-vector the ODE solver
returned. -/
theorem update_ground_clamp_nonneg (sol : OdeResult) :
    0 ≤ Copter.update_wing sol 2 := by
  simp [Copter.update_wing]

/-- C4 counterexample: at the input pi the wrap is -pi, which is not pi and
lies outside the half-open interval (-pi, pi]; the claimed codomain and the
claimed value wrap_angle(pi) = pi are both false. -/
theorem wrap_angle_at_pi_counterexample :
    wrap_angle Real.pi = -Real.pi ∧
    wrap_angle Real.pi ≠ Real.pi ∧
    wrap_angle Real.pi ∉ Set.Ioc (-Real.pi) Real.pi := by
  have h : wrap_angle Real.pi = -Real.pi := by
    unfold wrap_angle fmod
    have h2 : Real.pi + Real.pi = 2 * Real.pi := by ring
    rw [h2, div_self (ne_of_gt Real.two_pi_pos)]
    norm_num
  refine ⟨h, ?_, ?_⟩
  · rw [h]
    intro hc
    nlinarith [Real.pi_pos]
  · rw [h]
    simp [Set.mem_Ioc]

/-- C4 (amended): wrap_angle maps every real into the half-open interval
[-pi, pi) (so wrap_angle(pi) = -pi), and after an integration step the three
orientation components (indices 6, 7, 8) of the stored state lie in
[-pi, pi), whatever vector the solver returned. -/
theorem wrap_angle_range_Ico :
    (∀ x : ℝ, wrap_angle x ∈ Set.Ico (-Real.pi) Real.pi) ∧
    (∀ sol : OdeResult,
      Copter.update_wing sol 6 ∈ Set.Ico (-Real.pi) Real.pi ∧
      Copter.update_wing sol 7 ∈ Set.Ico (-Real.pi) Real.pi ∧
      Copter.update_wing sol 8 ∈ Set.Ico (-Real.pi) Real.pi) := by
  have key : ∀ x : ℝ, wrap_angle x ∈ Set.Ico (-Real.pi) Real.pi := by
    intro x
    have h := fmod_mem_Ico (x + Real.pi) Real.two_pi_pos
    unfold wrap_angle
    constructor
    · have := h.1
      linarith
    · have := h.2
      linarith
  refine ⟨key, fun sol => ?_⟩
  have h := update_wing_apply sol
  exact ⟨h.2.1 ▸ key (sol.y 6), h.2.2.1 ▸ key (sol.y 7), h.2.2.2 ▸ key (sol.y 8)⟩

/-- C10: setSpeed accepts every real speed, including negative ones, and the
recomputed thrust equals the fixed coefficient
4.392e-8 * diameter^3.5 / sqrt(pitch) * (4.23e-4 * pitch) times the square of
the speed; for positive diameter and pitch the thrust is therefore
non-negative after every setSpeed call, it vanishes exactly at speed 0, and a
freshly constructed Propellor also starts with thrust 0. -/
theorem setSpeed_thrust_quadratic (pr : Propellor) (s : ℝ)
    (hd : 0 < pr.diameter) (hp : 0 < pr.pitch) :
    (pr.setSpeed s).thrust =
      4.392e-8 * pr.diameter ^ (3.5 : ℝ) / Real.sqrt pr.pitch *
        (4.23e-4 * pr.pitch) * s ^ 2 ∧
    0 ≤ (pr.setSpeed s).thrust ∧
    ((pr.setSpeed s).thrust = 0 ↔ s = 0) ∧
    (Propellor.init pr.diameter pr.pitch).thrust = 0 := by
  have hpow : 0 < pr.diameter ^ (3.5 : ℝ) := Real.rpow_pos_of_pos hd _
  have hsqrt : 0 < Real.sqrt pr.pitch := Real.sqrt_pos.mpr hp
  have hcoef : 0 < 4.392e-8 * pr.diameter ^ (3.5 : ℝ) / Real.sqrt pr.pitch *
      (4.23e-4 * pr.pitch) := by
    apply mul_pos (div_pos (mul_pos (by norm_num) hpow) hsqrt)
    exact mul_pos (by norm_num) hp
  have heq : (pr.setSpeed s).thrust =
      4.392e-8 * pr.diameter ^ (3.5 : ℝ) / Real.sqrt pr.pitch *
        (4.23e-4 * pr.pitch) * s ^ 2 := by
    simp only [Propellor.setSpeed]
    ring
  refine ⟨heq, ?_, ?_, rfl⟩
  · rw [heq]
    exact mul_nonneg hcoef.le (sq_nonneg s)
  · rw [heq, mul_eq_zero]
    constructor
    · rintro (hc | hs)
      · exact absurd hc hcoef.ne'
      · exact pow_eq_zero_iff (n := 2) (by norm_num) |>.mp hs
    · intro hs
      right
      rw [hs]
      ring

/-- C10 witness: the theorem applied to a 10 by 4.5 inch propeller driven at
the negative speed -6000 RPM. -/
theorem setSpeed_thrust_quadratic_witness :
    0 < (Propellor.init 10 4.5).diameter ∧ 0 < (Propellor.init 10 4.5).pitch ∧
    0 ≤ ((Propellor.init 10 4.5).setSpeed (-6000)).thrust ∧
    (((Propellor.init 10 4.5).setSpeed (-6000)).thrust = 0 ↔ (-6000 : ℝ) = 0) := by
  have hd : 0 < (Propellor.init 10 4.5).diameter := by norm_num [Propellor.init]
  have hp : 0 < (Propellor.init 10 4.5).pitch := by norm_num [Propellor.init]
  have h := setSpeed_thrust_quadratic (Propellor.init 10 4.5) (-6000) hd hp
  exact ⟨hd, hp, h.2.1, h.2.2.1⟩

/-- Transposed elementary x-rotation times itself is the identity. -/
lemma R_x_transpose_mul (t : ℝ) : (R_x t).transpose * R_x t = 1 := by
  ext i j
  fin_cases i <;> fin_cases j <;>
    simp [R_x, Matrix.mul_apply, Fin.sum_univ_three, Matrix.transpose,
      Matrix.one_apply, Matrix.vecHead, Matrix.vecTail] <;>
    nlinarith [Real.sin_sq_add_cos_sq t]

/-- Transposed elementary y-rotation times itself is the identity. -/
lemma R_y_transpose_mul (t : ℝ) : (R_y t).transpose * R_y t = 1 := by
  ext i j
  fin_cases i <;> fin_cases j <;>
    simp [R_y, Matrix.mul_apply, Fin.sum_univ_three, Matrix.transpose,
      Matrix.one_apply, Matrix.vecHead, Matrix.vecTail] <;>
    nlinarith [Real.sin_sq_add_cos_sq t]

/-- Transposed elementary z-rotation times itself is the identity. -/
lemma R_z_transpose_mul (t : ℝ) : (R_z t).transpose * R_z t = 1 := by
  ext i j
  fin_cases i <;> fin_cases j <;>
    simp [R_z, Matrix.mul_apply, Fin.sum_univ_three, Matrix.transpose,
      Matrix.one_apply, Matrix.vecHead, Matrix.vecTail] <;>
    nlinarith [Real.sin_sq_add_cos_sq t]

/-- Determinant of the elementary x-rotation. -/
lemma R_x_det (t : ℝ) : (R_x t).det = 1 := by
  unfold R_x
  rw [Matrix.det_fin_three]
  simp
  nlinarith [Real.sin_sq_add_cos_sq t]

/-- Determinant of the elementary y-rotation. -/
lemma R_y_det (t : ℝ) : (R_y t).det = 1 := by
  unfold R_y
  rw [Matrix.det_fin_three]
  simp
  nlinarith [Real.sin_sq_add_cos_sq t]

/-- Determinant of the elementary z-rotation. -/
lemma R_z_det (t : ℝ) : (R_z t).det = 1 := by
  unfold R_z
  rw [Matrix.det_fin_three]
  simp
  nlinarith [Real.sin_sq_add_cos_sq t]

/-- C9: for all roll, pitch and yaw the matrix built by rotation_matrix is
orthonormal: its transpose times itself is the 3 by 3 identity and its
determinant is 1. -/
theorem rotation_matrix_orthonormal (roll pitch yaw : ℝ) :
    (rotation_matrix ![roll, pitch, yaw]).transpose *
      rotation_matrix ![roll, pitch, yaw] = 1 ∧
    (rotation_matrix ![roll, pitch, yaw]).det = 1 := by
  have hr : rotation_matrix ![roll, pitch, yaw] =
      R_z yaw * (R_y pitch * R_x roll) := rfl
  constructor
  · rw [hr, Matrix.transpose_mul, Matrix.transpose_mul, mul_assoc,
      ← mul_assoc ((R_z yaw).transpose) (R_z yaw) (R_y pitch * R_x roll),
      R_z_transpose_mul, one_mul, mul_assoc,
      ← mul_assoc ((R_y pitch).transpose) (R_y pitch) (R_x roll),
      R_y_transpose_mul, one_mul, R_x_transpose_mul]
  · rw [hr, Matrix.det_mul, Matrix.det_mul, R_x_det, R_y_det, R_z_det]
    norm_num

/-- Component 3 of the derivative (first linear-acceleration entry), unfolded
from the definition. -/
lemma state_dot_apply_three (g b : ℝ) (w : Wing) (t : ℝ) (s : Fin 12 → ℝ) :
    Quadcopter.state_dot g b w t s 3 =
      0 + (rotation_matrix ![w.state 6, w.state 7, w.state 8]).mulVec
        ![0, 0, w.m1.thrust + w.m2.thrust + w.m3.thrust + w.m4.thrust] 0 /
        w.weight := rfl

/-- Component 4 of the derivative (second linear-acceleration entry), unfolded
from the definition. -/
lemma state_dot_apply_four (g b : ℝ) (w : Wing) (t : ℝ) (s : Fin 12 → ℝ) :
    Quadcopter.state_dot g b w t s 4 =
      0 + (rotation_matrix ![w.state 6, w.state 7, w.state 8]).mulVec
        ![0, 0, w.m1.thrust + w.m2.thrust + w.m3.thrust + w.m4.thrust] 1 /
        w.weight := rfl

/-- Component 5 of the derivative (vertical-acceleration entry), unfolded from
the definition: the gravity term is -(weight * g), and only the rotated thrust
vector is divided by the weight. -/
lemma state_dot_apply_five (g b : ℝ) (w : Wing) (t : ℝ) (s : Fin 12 → ℝ) :
    Quadcopter.state_dot g b w t s 5 =
      -(w.weight * g) +
        (rotation_matrix ![w.state 6, w.state 7, w.state 8]).mulVec
          ![0, 0, w.m1.thrust + w.m2.thrust + w.m3.thrust + w.m4.thrust] 2 /
          w.weight := rfl

/-- Component 9 of the derivative (first angular-acceleration entry), unfolded
from the definition. -/
lemma state_dot_apply_nine (g b : ℝ) (w : Wing) (t : ℝ) (s : Fin 12 → ℝ) :
    Quadcopter.state_dot g b w t s 9 =
      (Wing.invI w).mulVec (fun i =>
        ![w.L * (w.m1.thrust - w.m3.thrust),
          w.L * (w.m2.thrust - w.m4.thrust),
          b * (w.m1.thrust - w.m2.thrust + w.m3.thrust - w.m4.thrust)] i -
        cross ![w.state 9, w.state 10, w.state 11]
          ((Wing.I w).mulVec ![w.state 9, w.state 10, w.state 11]) i) 0 := rfl

/-- Component 10 of the derivative (second angular-acceleration entry),
unfolded from the definition. -/
lemma state_dot_apply_ten (g b : ℝ) (w : Wing) (t : ℝ) (s : Fin 12 → ℝ) :
    Quadcopter.state_dot g b w t s 10 =
      (Wing.invI w).mulVec (fun i =>
        ![w.L * (w.m1.thrust - w.m3.thrust),
          w.L * (w.m2.thrust - w.m4.thrust),
          b * (w.m1.thrust - w.m2.thrust + w.m3.thrust - w.m4.thrust)] i -
        cross ![w.state 9, w.state 10, w.state 11]
          ((Wing.I w).mulVec ![w.state 9, w.state 10, w.state 11]) i) 1 := rfl

/-- Component 11 of the derivative (third angular-acceleration entry),
unfolded from the definition. -/
lemma state_dot_apply_eleven (g b : ℝ) (w : Wing) (t : ℝ) (s : Fin 12 → ℝ) :
    Quadcopter.state_dot g b w t s 11 =
      (Wing.invI w).mulVec (fun i =>
        ![w.L * (w.m1.thrust - w.m3.thrust),
          w.L * (w.m2.thrust - w.m4.thrust),
          b * (w.m1.thrust - w.m2.thrust + w.m3.thrust - w.m4.thrust)] i -
        cross ![w.state 9, w.state 10, w.state 11]
          ((Wing.I w).mulVec ![w.state 9, w.state 10, w.state 11]) i) 2 := rfl

/-- Rotation by the zero angle triple is the identity matrix. -/
lemma rotation_matrix_zero_angles : rotation_matrix ![(0 : ℝ), 0, 0] = 1 := by
  have hx : R_x 0 = 1 := by
    ext i j
    fin_cases i <;> fin_cases j <;>
      simp [R_x, Matrix.one_apply, Matrix.vecHead, Matrix.vecTail]
  have hy : R_y 0 = 1 := by
    ext i j
    fin_cases i <;> fin_cases j <;>
      simp [R_y, Matrix.one_apply, Matrix.vecHead, Matrix.vecTail]
  have hz : R_z 0 = 1 := by
    ext i j
    fin_cases i <;> fin_cases j <;>
      simp [R_z, Matrix.one_apply, Matrix.vecHead, Matrix.vecTail]
  show R_z 0 * (R_y 0 * R_x 0) = 1
  rw [hx, hy, hz, one_mul, one_mul]

/-- Level wing of weight 2 at rest with all four propeller thrusts zero. -/
def restWingTwoKg : Wing :=
  { state := fun _ => 0, weight := 2, r := 0.1, L := 0.3,
    m1 := zeroThrustProp, m2 := zeroThrustProp, m3 := zeroThrustProp,
    m4 := zeroThrustProp }

/-- Propellor whose current thrust is 4.905 newtons, the hover thrust
weight * g / 4 for weight 2 and g = 9.81. -/
def hoverProp : Propellor :=
  { diameter := 10, pitch := 4.5, speed := 0, thrust := 4.905 }

/-- Level wing of weight 2 at rest whose four propellers each produce the
hover thrust 4.905 = 2 * 9.81 / 4. -/
def hoverWingTwoKg : Wing :=
  { state := fun _ => 0, weight := 2, r := 0.1, L := 0.3,
    m1 := hoverProp, m2 := hoverProp, m3 := hoverProp, m4 := hoverProp }

/-- C1: for the level wing of weight 2 with all thrusts zero the vertical
acceleration returned by state_dot is -(2 * 9.81) = -19.62, the full weight
times g, not the claimed -9.81 = -g: the gravity term of the derivative is
-weight * g because line 173 never divides the gravity vector by the
weight. -/
theorem gravity_term_not_minus_g_eval :
    Quadcopter.state_dot 9.81 0.0245 restWingTwoKg 0 (fun _ => 0) 5 = -19.62 ∧
    ((-19.62 : ℝ) ≠ -9.81) := by
  constructor
  · rw [state_dot_apply_five]
    have hang : (![restWingTwoKg.state 6, restWingTwoKg.state 7,
        restWingTwoKg.state 8]) = ![(0 : ℝ), 0, 0] := rfl
    rw [hang, rotation_matrix_zero_angles, Matrix.one_mulVec]
    norm_num [restWingTwoKg, zeroThrustProp, Propellor.init]
  · norm_num

/-- C3: at the hover point of a weight-2 vehicle (level, at rest, each rotor
thrust = weight * g / 4 = 4.905 with g = 9.81) the derivative is not zero:
the horizontal and angular accelerations all vanish, but the vertical
acceleration is -9.81 because the gravity term -weight * g of line 173 is not
divided by the weight, so hover is an equilibrium only for weight 1. -/
theorem hover_thrust_not_equilibrium_eval :
    Quadcopter.state_dot 9.81 0.0245 hoverWingTwoKg 0 (fun _ => 0) 5 = -9.81 ∧
    ((-9.81 : ℝ) ≠ 0) ∧
    Quadcopter.state_dot 9.81 0.0245 hoverWingTwoKg 0 (fun _ => 0) 3 = 0 ∧
    Quadcopter.state_dot 9.81 0.0245 hoverWingTwoKg 0 (fun _ => 0) 4 = 0 ∧
    Quadcopter.state_dot 9.81 0.0245 hoverWingTwoKg 0 (fun _ => 0) 9 = 0 ∧
    Quadcopter.state_dot 9.81 0.0245 hoverWingTwoKg 0 (fun _ => 0) 10 = 0 ∧
    Quadcopter.state_dot 9.81 0.0245 hoverWingTwoKg 0 (fun _ => 0) 11 = 0 := by
  have hang : (![hoverWingTwoKg.state 6, hoverWingTwoKg.state 7,
      hoverWingTwoKg.state 8]) = ![(0 : ℝ), 0, 0] := rfl
  have hzero : (fun i =>
      ![hoverWingTwoKg.L * (hoverWingTwoKg.m1.thrust - hoverWingTwoKg.m3.thrust),
        hoverWingTwoKg.L * (hoverWingTwoKg.m2.thrust - hoverWingTwoKg.m4.thrust),
        0.0245 * (hoverWingTwoKg.m1.thrust - hoverWingTwoKg.m2.thrust +
          hoverWingTwoKg.m3.thrust - hoverWingTwoKg.m4.thrust)] i -
      cross ![hoverWingTwoKg.state 9, hoverWingTwoKg.state 10,
          hoverWingTwoKg.state 11]
        ((Wing.I hoverWingTwoKg).mulVec
          ![hoverWingTwoKg.state 9, hoverWingTwoKg.state 10,
            hoverWingTwoKg.state 11]) i) = (0 : Fin 3 → ℝ) := by
    funext i
    fin_cases i <;>
      norm_num [hoverWingTwoKg, hoverProp, cross, Matrix.mulVec,
        Matrix.dotProduct, Fin.sum_univ_three, Matrix.vecHead, Matrix.vecTail]
  refine ⟨?_, by norm_num, ?_, ?_, ?_, ?_, ?_⟩
  · rw [state_dot_apply_five, hang, rotation_matrix_zero_angles,
      Matrix.one_mulVec]
    norm_num [hoverWingTwoKg, hoverProp]
  · rw [state_dot_apply_three, hang, rotation_matrix_zero_angles,
      Matrix.one_mulVec]
    norm_num [hoverWingTwoKg, hoverProp]
  · rw [state_dot_apply_four, hang, rotation_matrix_zero_angles,
      Matrix.one_mulVec]
    norm_num [hoverWingTwoKg, hoverProp]
  · rw [state_dot_apply_nine, hzero, Matrix.mulVec_zero]
    rfl
  · rw [state_dot_apply_ten, hzero, Matrix.mulVec_zero]
    rfl
  · rw [state_dot_apply_eleven, hzero, Matrix.mulVec_zero]
    rfl
